import Mathlib

/-!
Verification of the Sunshine "starbeam" relay-edge agent
(src/starbeam/{protocol,client,udp,handler,tunnel}.{h,cpp}).

The development is a shallow embedding: the C++ data structures become Lean
structures, the pure string/message manipulation becomes Lean functions, and
the effectful parts (sockets, threads) become explicit state passing with
oracles for the values the operating system or the network supplies
(e.g. the OS-assigned local port of a UDP bind, the raw bytes a loopback
server answers, or the exception a transport operation throws).
Machine integers (uint16_t, int) are modelled as Nat/Int with explicit
reductions modulo 2^16 at the points where the C++ performs a narrowing
conversion.
-/

/-! ## Protocol data model (src/starbeam/protocol.h) -/

/-- `starbeam::ConnectionState` (client.h). -/
inductive ConnectionState where
  | Disconnected
  | Connecting
  | Connected
  | Registered
  | Error
deriving DecidableEq, Repr

/-- `starbeam::protocol::PortAssignment` (protocol.h): all fields uint16_t,
modelled as Nat (values < 2^16 wherever they originate from a parse). -/
structure PortAssignment where
  http : Nat
  https : Nat
  rtsp : Nat
  video : Nat
  audio : Nat
  control : Nat
deriving DecidableEq, Repr

/-- The all-zero port assignment, the value of `assigned_ports_ = {}`. -/
def PortAssignment.zero : PortAssignment :=
  ⟨0, 0, 0, 0, 0, 0⟩

/-- `starbeam::protocol::RegisterAckMessage` (protocol.h).  `from_json`
(protocol.cpp:77-98) reads `host_id` as an arbitrary string and the six ports
as uint16_t values, so every value of this structure is producible by a relay
message. -/
structure RegisterAckMessage where
  host_id : String
  ports : PortAssignment
  external_address : Option String
deriving DecidableEq, Repr

/-- `starbeam::protocol::HttpRequestMessage` (protocol.h). -/
structure HttpRequestMessage where
  id : Nat
  method : String
  path : String
  query : Option String
  headers : List (String × String)
  body : Option String
  is_https : Bool
  client_addr : String

/-- `starbeam::protocol::HttpResponseMessage` (protocol.h). -/
structure HttpResponseMessage where
  id : Nat
  status : Nat
  headers : List (String × String)
  body : Option String

/-- `starbeam::protocol::RtspRequestMessage` (protocol.h). -/
structure RtspRequestMessage where
  id : Nat
  method : String
  uri : String
  headers : List (String × String)
  body : Option String
  client_addr : String

/-- `starbeam::protocol::RtspResponseMessage` (protocol.h). -/
structure RtspResponseMessage where
  id : Nat
  status : Nat
  reason : String
  headers : List (String × String)
  body : Option String

/-- `starbeam::protocol::UdpChannelType` (protocol.h). -/
inductive UdpChannelType where
  | Video
  | Audio
  | Control
deriving DecidableEq, Repr

/-- `starbeam::protocol::UdpChannelSetupMessage` (protocol.h). -/
structure UdpChannelSetupMessage where
  session_id : Nat
  channel : UdpChannelType
  client_addr : String
deriving DecidableEq, Repr

/-- `starbeam::protocol::UdpChannelAckMessage` (protocol.h). -/
structure UdpChannelAckMessage where
  session_id : Nat
  channel : UdpChannelType
  relay_port : Nat
  local_port : Nat
deriving DecidableEq, Repr

/-- `starbeam::protocol::SessionStartMessage` (protocol.h). -/
structure SessionStartMessage where
  session_id : Nat
  client_id : String
  client_addr : String

/-- `starbeam::protocol::PingMessage` / `PongMessage` payload (protocol.h). -/
structure PongMessage where
  ts : Nat
deriving DecidableEq, Repr

/-- `starbeam::protocol::ErrorMessage` (protocol.h). -/
structure ErrorMessage where
  code : String
  message : String
  request_id : Option Nat

/-- `PongMessage::to_json` (protocol.cpp:260-264):
`{"type":"pong","ts":N}` with N in decimal. -/
def PongMessage.to_json (m : PongMessage) : String :=
  "\x7b\"type\":\"pong\",\"ts\":" ++ toString m.ts ++ "\x7d"

/-- `starbeam::protocol::channel_type_string` (protocol.cpp:345-352).
The `default: return "unknown"` branch is unreachable for the three-valued
enum and has no counterpart here. -/
def channel_type_string : UdpChannelType → String
  | UdpChannelType.Video => "video"
  | UdpChannelType.Audio => "audio"
  | UdpChannelType.Control => "control"

/-- `starbeam::protocol::channel_type_from_string` (protocol.cpp:354-359):
three exact comparisons, every other string falls through to
`return UdpChannelType::Video;  // Default`. -/
def channel_type_from_string (str : String) : UdpChannelType :=
  if str = "video" then UdpChannelType.Video
  else if str = "audio" then UdpChannelType.Audio
  else if str = "control" then UdpChannelType.Control
  else UdpChannelType.Video

/-- Field-level embedding of `UdpChannelSetupMessage::from_json`
(protocol.cpp:202-213): the parsed `channel` field is
`channel_type_from_string` applied to the JSON string field `channel`. -/
def udpChannelSetupFromFields (session_id : Nat) (channel_str : String)
    (client_addr : String) : UdpChannelSetupMessage :=
  { session_id := session_id
    channel := channel_type_from_string channel_str
    client_addr := client_addr }

/-! ## UDP channel relay manager (src/starbeam/udp.h, udp.cpp) -/

/-- `starbeam::udp::ChannelManager::Channel` (udp.h).  The socket itself is
abstracted away; its observable attributes (the OS-assigned local port, the
resolved relay endpoint port, the loopback streaming-host endpoint port and
the running flag) are kept. -/
structure Channel where
  local_port : Nat
  relay_endpoint_port : Nat
  local_endpoint_port : Nat
  running : Bool
deriving DecidableEq, Repr

/-- The mutable state of `starbeam::udp::ChannelManager` (udp.h):
`running_`, the relay host and the three relay ports stored by `initialize`,
and the `channels_` map.  `std::map<UdpChannelType, unique_ptr<Channel>>` is
embedded as an association list with unique keys. -/
structure ChannelManagerS where
  running : Bool
  relay_host : String
  relay_video_port : Nat
  relay_audio_port : Nat
  relay_control_port : Nat
  channels : List (UdpChannelType × Channel)
deriving DecidableEq, Repr

/-- `channels_.find(k)` on the association-list embedding of the map. -/
def lookupCh (k : UdpChannelType) : List (UdpChannelType × Channel) → Option Channel
  | [] => none
  | (k', v) :: t => if k' = k then some v else lookupCh k t

/-- `channels_[k] = v` (std::map insert-or-assign) on the embedding. -/
def mapAssign (k : UdpChannelType) (v : Channel) :
    List (UdpChannelType × Channel) → List (UdpChannelType × Channel)
  | [] => [(k, v)]
  | (k', v') :: t => if k' = k then (k, v) :: t else (k', v') :: mapAssign k v t

/-- The std::map key-uniqueness invariant of `channels_`. -/
def keysNodup (l : List (UdpChannelType × Channel)) : Prop :=
  (l.map Prod.fst).Nodup

/-- Number of records stored for one channel type. -/
def countKey (k : UdpChannelType) (l : List (UdpChannelType × Channel)) : Nat :=
  (l.filter (fun p => p.1 = k)).length

/-- `ChannelManager::get_sunshine_port` (udp.cpp:737-754).  `base_port` is the
int `config::sunshine.port` (an external configuration value, passed here as a
parameter); the return type is uint16_t, so the int sum is reduced mod 2^16.
The C++ `default: return 0` branch is unreachable for the three-valued enum. -/
def get_sunshine_port (base_port : Nat) : UdpChannelType → Nat
  | UdpChannelType.Video => (base_port + 9) % 65536
  | UdpChannelType.Audio => (base_port + 10) % 65536
  | UdpChannelType.Control => (base_port + 8) % 65536

/-- The `switch (setup.channel)` selecting the relay port
(udp.cpp:604-616). -/
def relayPortFor (m : ChannelManagerS) : UdpChannelType → Nat
  | UdpChannelType.Video => m.relay_video_port
  | UdpChannelType.Audio => m.relay_audio_port
  | UdpChannelType.Control => m.relay_control_port

/-- `ChannelManager::handle_channel_setup` (udp.cpp:581-673).

`freshPort` is the oracle for the socket-creation block (udp.cpp:630-657):
`some p` means the UDP socket bound to 0.0.0.0:0 succeeded and the OS
assigned local port `p` (and resolve/thread creation succeeded too);
`none` means some step of that block threw, in which case the exception is
caught before the ack fields are assigned, so the zero ack is returned and no
record is inserted.  Returns the ack together with the updated manager
state. -/
def handle_channel_setup (base_port : Nat) (freshPort : Option Nat)
    (m : ChannelManagerS) (setup : UdpChannelSetupMessage) :
    UdpChannelAckMessage × ChannelManagerS :=
  let ack0 : UdpChannelAckMessage :=
    { session_id := setup.session_id, channel := setup.channel
      relay_port := 0, local_port := 0 }
  if !m.running then (ack0, m)
  else
    let sunshine_port := get_sunshine_port base_port setup.channel
    if sunshine_port = 0 then (ack0, m)
    else
      let relay_port := relayPortFor m setup.channel
      match lookupCh setup.channel m.channels with
      | some ch =>
        ({ ack0 with relay_port := relay_port, local_port := ch.local_port }, m)
      | none =>
        match freshPort with
        | none => (ack0, m)
        | some p =>
          let ch : Channel :=
            { local_port := p
              relay_endpoint_port := relay_port
              local_endpoint_port := sunshine_port
              running := true }
          ({ ack0 with relay_port := relay_port, local_port := p },
           { m with channels := mapAssign setup.channel ch m.channels })

/-- `ChannelManager::get_local_port` (udp.cpp:675-682). -/
def get_local_port (m : ChannelManagerS) (channel : UdpChannelType) : Nat :=
  match lookupCh channel m.channels with
  | some ch => ch.local_port
  | none => 0

/-! ## URL parsing (Client::parse_url, client.cpp:131-149)

The C++ matches `server_url` against the ECMAScript regular expression
`(wss?):\/\/([^:/]+)(?::(\d+))?(\/.*)?` with `std::regex::icase` and
`std::regex_match` (full match).  The regex is deterministic enough that its
language can be decided by the direct scanner below:
scheme `ws`/`wss` case-insensitively, then `://`, then one or more characters
other than `:` and `/` (the host), then an optional `:` followed by one or
more ASCII digits (the port), then an optional path beginning with `/` whose
remaining characters may not be ECMAScript line terminators (which `.` does
not match). -/

/-- `[^:/]` of the host group. -/
def notHostDelim (c : Char) : Bool :=
  !(c == ':' || c == '/')

/-- `\d` — an ASCII digit. -/
def isAsciiDigit (c : Char) : Bool :=
  '0' ≤ c && c ≤ '9'

/-- ECMAScript line terminators, the characters `.` does not match. -/
def isLineTerminator (c : Char) : Bool :=
  c == '\n' || c == '\r' || c == Char.ofNat 0x2028 || c == Char.ofNat 0x2029

/-- The `(wss?):\/\/` prefix with icase: returns the scheme as matched
(case preserved, as `match[1].str()` does) and the rest of the input. -/
def schemeSplitChars : List Char → Option (List Char × List Char)
  | c1 :: c2 :: ':' :: '/' :: '/' :: rest =>
    if (c1 == 'w' || c1 == 'W') && (c2 == 's' || c2 == 'S') then
      some ([c1, c2], rest)
    else none
  | c1 :: c2 :: c3 :: ':' :: '/' :: '/' :: rest =>
    if (c1 == 'w' || c1 == 'W') && (c2 == 's' || c2 == 'S') &&
        (c3 == 's' || c3 == 'S') then
      some ([c1, c2, c3], rest)
    else none
  | _ => none

/-- The optional path group `(\/.*)?` applied to what remains after host and
port; an absent group yields the default `path = "/"`
(client.cpp:146). -/
def parsePathGroup : List Char → Option String
  | [] => some "/"
  | '/' :: r =>
    if r.all (fun c => !isLineTerminator c) then some (String.mk ('/' :: r))
    else none
  | _ => none

/-- The result of `Client::parse_url`'s four out-parameters. -/
structure UrlParts where
  host : String
  port : String
  path : String
  use_ssl : Bool
deriving DecidableEq, Repr

/-- The host/port/path groups after the scheme match: host `[^:/]+`, the
optional `(?::(\d+))?` port, the optional path, and the computation of
`use_ssl` and the port default from the matched scheme text:
`use_ssl = (scheme == "wss" || scheme == "WSS")` compares the matched scheme
exactly (client.cpp:142), and the port default 443/80 is chosen by that same
`use_ssl` flag (client.cpp:145). -/
def parseHostPortPath (scheme rest : List Char) : Option UrlParts :=
  let host := rest.takeWhile notHostDelim
  let rest2 := rest.dropWhile notHostDelim
  if host.isEmpty then none
  else
    let use_ssl := String.mk scheme == "wss" || String.mk scheme == "WSS"
    match rest2 with
    | ':' :: r3 =>
      let ds := r3.takeWhile isAsciiDigit
      let r4 := r3.dropWhile isAsciiDigit
      if ds.isEmpty then none
      else
        match parsePathGroup r4 with
        | none => none
        | some p =>
          some { host := String.mk host, port := String.mk ds, path := p
                 use_ssl := use_ssl }
    | _ =>
      match parsePathGroup rest2 with
      | none => none
      | some p =>
        some { host := String.mk host
               port := if use_ssl then "443" else "80"
               path := p
               use_ssl := use_ssl }

/-- `Client::parse_url` (client.cpp:131-149) on the character list of the
URL. -/
def parse_url_chars (cs : List Char) : Option UrlParts :=
  match schemeSplitChars cs with
  | none => none
  | some (scheme, rest) => parseHostPortPath scheme rest

/-- `Client::parse_url` on a `String`; `none` models `return false`. -/
def parse_url (url : String) : Option UrlParts :=
  parse_url_chars url.toList

/-! ## Control client (src/starbeam/client.h, client.cpp)

The client's mutable state is embedded as `ClientS`; the I/O thread, the
WebSocket and the logging sink are abstracted away.  Incoming frames are
modelled after JSON parsing (`parse_message_type` + the per-type `from_json`,
client.cpp:317-422); a frame whose parse fails is the `Unknown` case.
Outgoing `send_message` calls are collected as a list of structured messages
(each is serialized by its `to_json` before hitting the wire). -/

/-- A parsed incoming control-channel frame, as dispatched by
`Client::handle_message` (client.cpp:317-422). -/
inductive InMessage where
  | registerAck (ack : RegisterAckMessage)
  | registerError (e : ErrorMessage)
  | httpRequest (req : HttpRequestMessage)
  | rtspRequest (req : RtspRequestMessage)
  | sessionStart (m : SessionStartMessage)
  | sessionEnd (session_id : Nat)
  | udpChannelSetup (setup : UdpChannelSetupMessage)
  | ping (ts : Nat)
  | errorMsg (e : ErrorMessage)
  | unknown

/-- A message passed to `send_message` while handling one incoming frame. -/
inductive OutMessage where
  | httpResponse (r : HttpResponseMessage)
  | rtspResponse (r : RtspResponseMessage)
  | udpAck (a : UdpChannelAckMessage)
  | pong (p : PongMessage)

/-- The handler slots of `Client` (client.h); `none` is an empty
`std::function`.  The session handlers return no data to the client, so only
their presence matters here. -/
structure Handlers where
  http : Option (HttpRequestMessage → HttpResponseMessage)
  rtsp : Option (RtspRequestMessage → RtspResponseMessage)
  udp : Option (UdpChannelSetupMessage → UdpChannelAckMessage)
  sessionStartSet : Bool
  sessionEndSet : Bool

/-- The mutable fields of `starbeam::Client` the claims observe:
`running_`, whether the I/O thread is live, `state_`, `assigned_host_id_`,
`assigned_ports_`, and the construction-time `server_url_`. -/
structure ClientS where
  running : Bool
  threadActive : Bool
  connState : ConnectionState
  assigned_host_id : String
  assigned_ports : PortAssignment
  server_url : String
deriving DecidableEq, Repr

/-- A freshly constructed client (client.cpp:23-28): state Disconnected, no
assigned identity, not running. -/
def initClient (url : String) : ClientS :=
  { running := false, threadActive := false
    connState := ConnectionState.Disconnected
    assigned_host_id := "", assigned_ports := PortAssignment.zero
    server_url := url }

/-- `Client::get_state` (client.cpp:68-70). -/
def get_state (c : ClientS) : ConnectionState :=
  c.connState

/-- `Client::get_host_id` (client.cpp:72-74). -/
def get_host_id (c : ClientS) : String :=
  c.assigned_host_id

/-- `Client::get_ports` (client.cpp:76-78). -/
def get_ports (c : ClientS) : PortAssignment :=
  c.assigned_ports

/-- `Client::is_ready` (client.cpp:64-66). -/
def is_ready (c : ClientS) : Bool :=
  c.connState = ConnectionState.Registered

/-- `Client::handle_message` (client.cpp:317-422): the state change and the
`send_message` calls performed for one parsed incoming frame.
The `register_ack` case stores `host_id` and `ports` and sets the state to
Registered with no validation; the UDP-manager initialization it also
performs lives in the `ChannelManagerS` model.  The `register_error` case
sets Error (and stops the io context, aborting the read loop).  Request
cases invoke the corresponding handler under the handler mutex if one is
set and send exactly one serialized response; the ping case always sends
exactly one pong echoing `ts`. -/
def handle_message (h : Handlers) (c : ClientS) :
    InMessage → ClientS × List OutMessage
  | InMessage.registerAck ack =>
    ({ c with assigned_host_id := ack.host_id
              assigned_ports := ack.ports
              connState := ConnectionState.Registered }, [])
  | InMessage.registerError _ =>
    ({ c with connState := ConnectionState.Error }, [])
  | InMessage.httpRequest req =>
    match h.http with
    | some f => (c, [OutMessage.httpResponse (f req)])
    | none => (c, [])
  | InMessage.rtspRequest req =>
    match h.rtsp with
    | some f => (c, [OutMessage.rtspResponse (f req)])
    | none => (c, [])
  | InMessage.sessionStart _ => (c, [])
  | InMessage.sessionEnd _ => (c, [])
  | InMessage.udpChannelSetup setup =>
    match h.udp with
    | some f => (c, [OutMessage.udpAck (f setup)])
    | none => (c, [])
  | InMessage.ping ts => (c, [OutMessage.pong ⟨ts⟩])
  | InMessage.errorMsg _ => (c, [])
  | InMessage.unknown => (c, [])

/-- `Client::disconnect` (client.cpp:245-267): closes and frees the
transport, clears `assigned_host_id_` and `assigned_ports_`, and sets the
state to Disconnected. -/
def disconnectClient (c : ClientS) : ClientS :=
  { c with assigned_host_id := ""
           assigned_ports := PortAssignment.zero
           connState := ConnectionState.Disconnected }

/-- `Client::stop` (client.cpp:49-62): clears `running_`, stops the io
context and joins the I/O thread, then sets the state to Disconnected.
If the I/O thread was live, joining it means the thread completed the
cleanup `disconnect()` of its final `run_io_context` iteration
(client.cpp:151-175) before exiting, so that disconnect is applied here;
a thread that never entered an iteration left the assigned state at its
initial empty value. -/
def stopClient (c : ClientS) : ClientS :=
  let c1 := { c with running := false }
  let c2 := if c1.threadActive then disconnectClient c1 else c1
  { c2 with threadActive := false, connState := ConnectionState.Disconnected }

/-- The operations that can act on a `ClientS` over its lifetime, each
mirroring a code path of client.cpp.  `connectParse` is the prefix of
`Client::connect` (client.cpp:177-184): state := Connecting, then parse the
server URL and set Error on failure.  `connected` is the successful
transport+handshake path (client.cpp:236).  `msg` is one read-loop
dispatch; `ioCycleEnd` is the `disconnect()` cleanup of one
`run_io_context` iteration. -/
inductive ClientEvent where
  | start
  | connectParse
  | connected
  | msg (m : InMessage)
  | ioCycleEnd
  | stop

/-- One step of the client lifecycle.  Operations run by the I/O thread
(`connectParse`, `connected`, `msg`, `ioCycleEnd`) have an effect only while
the thread is live. -/
def stepClient (h : Handlers) (c : ClientS) : ClientEvent → ClientS
  | ClientEvent.start =>
    if c.running then c else { c with running := true, threadActive := true }
  | ClientEvent.connectParse =>
    if c.threadActive then
      match parse_url c.server_url with
      | none => { c with connState := ConnectionState.Error }
      | some _ => { c with connState := ConnectionState.Connecting }
    else c
  | ClientEvent.connected =>
    if c.threadActive then { c with connState := ConnectionState.Connected }
    else c
  | ClientEvent.msg m =>
    if c.threadActive then (handle_message h c m).1 else c
  | ClientEvent.ioCycleEnd =>
    if c.threadActive then disconnectClient c else c
  | ClientEvent.stop => stopClient c

/-- The registration invariant of the spec:
`state == Registered ⇒ assigned_host_id ≠ "" ∧ ports.http > 0`. -/
def RegInv (c : ClientS) : Prop :=
  c.connState = ConnectionState.Registered →
    c.assigned_host_id ≠ "" ∧ c.assigned_ports.http > 0

/-! ## Loopback HTTP/RTSP forwarder (src/starbeam/handler.cpp) -/

/-- `::tolower` in the C locale, applied per character
(handler.cpp:63, 128, 268). -/
def cToLower (c : Char) : Char :=
  if 'A' ≤ c && c ≤ 'Z' then Char.ofNat (c.toNat + 32) else c

/-- `std::transform(..., ::tolower)` over a whole string. -/
def strToLower (s : String) : String :=
  String.mk (s.toList.map cToLower)

/-- The header filter of the HTTP forwarder (handler.cpp:66): keys whose
lowercase form is `host`, `connection` or `transfer-encoding` are skipped. -/
def isSkippedHeader (key : String) : Bool :=
  let lk := strToLower key
  lk == "host" || lk == "connection" || lk == "transfer-encoding"

/-- The forwarded-header serialization loop (handler.cpp:60-70): iterate the
header map, appending `key: value\r\n` for every non-skipped header. -/
def forward_headers (headers : List (String × String)) : String :=
  headers.foldl
    (fun acc kv =>
      if isSkippedHeader kv.1 then acc
      else acc ++ (kv.1 ++ ": " ++ kv.2 ++ "\r\n"))
    ""

/-- `body.size()`: the byte length of a std::string, i.e. the UTF-8 byte
size of the Lean string. -/
def cppSize (s : String) : Nat :=
  s.utf8ByteSize

/-- The HTTP/1.1 request text the forwarder writes to the loopback socket
(handler.cpp:50-88): request line with `path?query`, `Host:`, forwarded
headers, the two injected client-address headers, `Content-Length` only for
a non-empty body, `Connection: close`, blank line, body. -/
def build_http_request (local_port : Nat) (method path query : String)
    (headers : List (String × String)) (body client_addr : String) : String :=
  let full_path := if !query.isEmpty then path ++ "?" ++ query else path
  method ++ " " ++ full_path ++ " HTTP/1.1\r\n"
    ++ ("Host: 127.0.0.1:" ++ toString local_port ++ "\r\n")
    ++ forward_headers headers
    ++ ("X-Forwarded-For: " ++ client_addr ++ "\r\n")
    ++ ("X-Starbeam-Client: " ++ client_addr ++ "\r\n")
    ++ (if !body.isEmpty then "Content-Length: " ++ toString (cppSize body) ++ "\r\n" else "")
    ++ "Connection: close\r\n"
    ++ "\r\n"
    ++ (if !body.isEmpty then body else "")

/-- The RTSP request text (handler.cpp:205-226): `METHOD uri RTSP/1.0`, all
headers unfiltered, only `X-Starbeam-Client` injected, `Content-Length` only
for a non-empty body, blank line, body (no `Connection:` header). -/
def build_rtsp_request (method uri : String)
    (headers : List (String × String)) (body client_addr : String) : String :=
  method ++ " " ++ uri ++ " RTSP/1.0\r\n"
    ++ headers.foldl (fun acc kv => acc ++ (kv.1 ++ ": " ++ kv.2 ++ "\r\n")) ""
    ++ ("X-Starbeam-Client: " ++ client_addr ++ "\r\n")
    ++ (if !body.isEmpty then "Content-Length: " ++ toString (cppSize body) ++ "\r\n" else "")
    ++ "\r\n"
    ++ (if !body.isEmpty then body else "")

/-- Split a byte stream at the first `\r\n\r\n` (the `read_until` delimiter,
handler.cpp:98): returns (head, rest); if the delimiter never appears the
whole input is the head (the ignored `ec` of `read_until`). -/
def splitHeadRest : List Char → List Char × List Char
  | '\r' :: '\n' :: '\r' :: '\n' :: rest => ([], rest)
  | c :: rest =>
    let p := splitHeadRest rest
    (c :: p.1, p.2)
  | [] => ([], [])

/-- Strip the single trailing `\r` of a getline result
(handler.cpp:115-117). -/
def stripCR (l : List Char) : List Char :=
  if l.getLast? = some '\r' then l.dropLast else l

/-- `std::getline` over a buffered text: split on `\n`, each line with its
trailing `\r` removed. -/
def splitLinesAux (acc : List Char) : List Char → List (List Char)
  | [] => [stripCR acc.reverse]
  | '\n' :: t => stripCR acc.reverse :: splitLinesAux [] t
  | c :: t => splitLinesAux (c :: acc) t

/-- All lines of a header block. -/
def splitLines (l : List Char) : List (List Char) :=
  splitLinesAux [] l

/-- The whitespace set `istream >>` skips in the C locale. -/
def isCppSpace (c : Char) : Bool :=
  c == ' ' || c == '\t' || c == '\n' || c == '\r' || c == '\x0b' || c == '\x0c'

/-- Decimal value of a digit string. -/
def natOfDigits (ds : List Char) : Nat :=
  ds.foldl (fun a c => a * 10 + (c.toNat - 48)) 0

/-- `istream >> (int&)`: skip whitespace, optional sign, digits.
`none` models a failed extraction (failbit set; since C++11 the target is
written as 0 and later reads on the stream fail). On success returns the
value and the unconsumed remainder. Int overflow is not modelled. -/
def parseIntTok (cs : List Char) : Option (Int × List Char) :=
  let cs1 := cs.dropWhile isCppSpace
  match cs1 with
  | '-' :: rest =>
    let ds := rest.takeWhile isAsciiDigit
    if ds.isEmpty then none
    else some (-(natOfDigits ds : Int), rest.drop ds.length)
  | '+' :: rest =>
    let ds := rest.takeWhile isAsciiDigit
    if ds.isEmpty then none
    else some ((natOfDigits ds : Int), rest.drop ds.length)
  | _ =>
    let ds := cs1.takeWhile isAsciiDigit
    if ds.isEmpty then none
    else some ((natOfDigits ds : Int), cs1.drop ds.length)

/-- `std::stoul` (handler.cpp:133, 270): skip whitespace, optional sign,
digits; *throws* `std::invalid_argument` when no digits can be consumed,
which the forwarder's catch-all turns into a 500.  A negative input wraps
modulo 2^64 (unsigned long conversion). -/
def stoulE (s : String) : Except String Nat :=
  let cs := s.toList.dropWhile isCppSpace
  let negative := match cs with
    | '-' :: _ => true
    | _ => false
  let cs2 := match cs with
    | '+' :: r => r
    | '-' :: r => r
    | _ => cs
  let ds := cs2.takeWhile isAsciiDigit
  if ds.isEmpty then Except.error "stoul: invalid argument"
  else
    let v := natOfDigits ds
    Except.ok (if negative then (2 ^ 64 - v % 2 ^ 64) % 2 ^ 64 else v)

/-- Split a header line at its first `:` (handler.cpp:120-123);
`none` when the line has no colon (such lines are ignored). -/
def splitAtColon : List Char → Option (List Char × List Char)
  | [] => none
  | ':' :: t => some ([], t)
  | c :: t => (splitAtColon t).map (fun p => (c :: p.1, p.2))

/-- Response parsing of the HTTP forwarder (handler.cpp:100-166) over the
raw bytes the loopback server answered: status line parsed by stream
extraction (`>> version >> status`, a failed extraction leaving 0), header
lines scanned for `content-type` and `content-length` case-insensitively
(the `content-length` value going through the throwing `stoul`), and the
body either the next `content-length` bytes (short reads truncate) or, with
no content length, everything to EOF.  The `Except.error` results are the
parse exceptions the catch-all converts to a 500. -/
def parse_http_response (raw : String) :
    Except String (Int × String × String) := do
  let (head, rest) := splitHeadRest raw.toList
  let lines := splitLines head
  let statusLine := lines.headD []
  let hdrLines := lines.drop 1
  let afterVer := (statusLine.dropWhile isCppSpace).dropWhile
    (fun c => !isCppSpace c)
  let status : Int := match parseIntTok afterVer with
    | some (v, _) => v
    | none => 0
  let parsed ← hdrLines.foldlM
    (fun (st : String × Nat) line => do
      match splitAtColon line with
      | none => pure st
      | some (k, vraw) =>
        let v := String.mk (vraw.dropWhile (fun c => c == ' '))
        let lk := strToLower (String.mk k)
        if lk = "content-type" then pure (v, st.2)
        else if lk = "content-length" then do
          let n ← stoulE v
          pure (st.1, n)
        else pure st)
    ("", 0)
  let body :=
    if parsed.2 > 0 then String.mk (rest.take parsed.2)
    else String.mk rest
  pure (status, parsed.1, body)

/-- `handle_http_request` (handler.cpp:25-179).  `net` is the oracle for the
loopback TCP transaction: applied to the request bytes it either returns the
raw response bytes the local server sent or `Except.error` for any exception
thrown while resolving, connecting, writing or reading.  Any transport or
parse exception is caught and converted to
`(500, "text/plain", "Internal Server Error")` (handler.cpp:175-178). -/
def handle_http_request (net : String → Except String String)
    (local_port : Nat) (method path query : String)
    (headers : List (String × String)) (body client_addr : String) :
    Int × String × String :=
  match net (build_http_request local_port method path query headers body client_addr) with
  | Except.error _ => (500, "text/plain", "Internal Server Error")
  | Except.ok raw =>
    match parse_http_response raw with
    | Except.error _ => (500, "text/plain", "Internal Server Error")
    | Except.ok r => r

/-- `response_headers[key] = value` of the RTSP response parse: std::map
insert-or-assign on string keys. -/
def strMapAssign (k v : String) :
    List (String × String) → List (String × String)
  | [] => [(k, v)]
  | (k', v') :: t =>
    if k' = k then (k, v) :: t else (k', v') :: strMapAssign k v t

/-- Response parsing of the RTSP forwarder (handler.cpp:232-290): like the
HTTP parse but the reason phrase is kept (getline after the status
extraction, one leading space and the trailing `\r` stripped,
handler.cpp:244-247; a failed status extraction leaves it empty), the whole
header map is preserved, and with no content length the body stays empty. -/
def parse_rtsp_response (raw : String) :
    Except String (Int × String × List (String × String) × String) := do
  let (head, rest) := splitHeadRest raw.toList
  let lines := splitLines head
  let statusLine := lines.headD []
  let hdrLines := lines.drop 1
  let afterVer := (statusLine.dropWhile isCppSpace).dropWhile
    (fun c => !isCppSpace c)
  let (status, reason) := match parseIntTok afterVer with
    | some (v, restLine) =>
      let r := match restLine with
        | ' ' :: t => t
        | t => t
      (v, String.mk r)
    | none => ((0 : Int), "")
  let parsed ← hdrLines.foldlM
    (fun (st : List (String × String) × Nat) line => do
      match splitAtColon line with
      | none => pure st
      | some (k, vraw) =>
        let key := String.mk k
        let v := String.mk (vraw.dropWhile (fun c => c == ' '))
        let hs := strMapAssign key v st.1
        let lk := strToLower key
        if lk = "content-length" then do
          let n ← stoulE v
          pure (hs, n)
        else pure (hs, st.2))
    ([], 0)
  let body :=
    if parsed.2 > 0 then String.mk (rest.take parsed.2)
    else ""
  pure (status, reason, parsed.1, body)

/-- `handle_rtsp_request` (handler.cpp:182-303) with the same transaction
oracle; any exception yields
`(500, "Internal Server Error", {}, "")` (handler.cpp:299-302). -/
def handle_rtsp_request (net : String → Except String String)
    (method uri : String) (headers : List (String × String))
    (body client_addr : String) :
    Int × String × List (String × String) × String :=
  match net (build_rtsp_request method uri headers body client_addr) with
  | Except.error _ => (500, "Internal Server Error", [], "")
  | Except.ok raw =>
    match parse_rtsp_response raw with
    | Except.error _ => (500, "Internal Server Error", [], "")
    | Except.ok r => r

/-- Whether an `Except` is the thrown case. -/
def exceptIsError {ε α : Type} : Except ε α → Bool
  | Except.error _ => true
  | Except.ok _ => false

/-! ## Tunnel glue (src/starbeam/tunnel.cpp) -/

/-- `int` → `uint16_t` narrowing (the `resp.status = status`
assignments): reduction modulo 2^16. -/
def intToU16 (i : Int) : Nat :=
  (i.emod 65536).toNat

/-- The type of `tunnel::NvhttpHandler`
(`handler::handle_http_request`'s shape); the `Except` result models the
handler call itself throwing. -/
def NvhttpHandlerT : Type :=
  String → String → String → List (String × String) → String → String →
    Bool → Except String (Int × String × String)

/-- The type of `tunnel::RtspHandler`. -/
def RtspHandlerT : Type :=
  String → String → List (String × String) → String → String →
    Except String (Int × String × List (String × String) × String)

/-- The tunnel's internal HTTP request handler (tunnel.cpp:19-56):
`resp.id = req.id` first; 500 with `"Internal Server Error: No handler"`
when no nvhttp handler is registered; otherwise call the handler with the
request fields (optional query/body defaulted to `""`), copying status
(narrowed to uint16), a non-empty content type into a `Content-Type` header
and a non-empty body; a throwing handler yields 500 with
`"Internal Server Error"`.  In every branch the returned message keeps the
request's id. -/
def tunnel_handle_http_request (nv : Option NvhttpHandlerT)
    (req : HttpRequestMessage) : HttpResponseMessage :=
  match nv with
  | none =>
    { id := req.id, status := 500, headers := []
      body := some "Internal Server Error: No handler" }
  | some f =>
    match f req.method req.path (req.query.getD "") req.headers
        (req.body.getD "") req.client_addr req.is_https with
    | Except.ok (status, content_type, body) =>
      { id := req.id
        status := intToU16 status
        headers :=
          if !content_type.isEmpty then [("Content-Type", content_type)]
          else []
        body := if !body.isEmpty then some body else none }
    | Except.error _ =>
      { id := req.id, status := 500, headers := []
        body := some "Internal Server Error" }

/-- The tunnel's internal RTSP request handler (tunnel.cpp:59-93). -/
def tunnel_handle_rtsp_request (rh : Option RtspHandlerT)
    (req : RtspRequestMessage) : RtspResponseMessage :=
  match rh with
  | none =>
    { id := req.id, status := 500, reason := "Internal Server Error"
      headers := [], body := none }
  | some f =>
    match f req.method req.uri req.headers (req.body.getD "")
        req.client_addr with
    | Except.ok (status, reason, headers, body) =>
      { id := req.id
        status := intToU16 status
        reason := reason
        headers := headers
        body := if !body.isEmpty then some body else none }
    | Except.error _ =>
      { id := req.id, status := 500, reason := "Internal Server Error"
        headers := [], body := none }

/-! ## Spec-side definitions

These follow the specification's wording rather than the code and exist to
be compared with the code-derived definitions above. -/

/-- Case-insensitive string comparison, the spec's reading of "except
{host, connection, transfer-encoding} (case-insensitive)". -/
def headerEqCI (a b : String) : Bool :=
  strToLower a == strToLower b

/-- Spec-side predicate: a header is forwarded unless its name equals
`host`, `connection` or `transfer-encoding` case-insensitively. -/
def keepHeader (key : String) : Bool :=
  !(headerEqCI key "host" || headerEqCI key "connection"
    || headerEqCI key "transfer-encoding")

/-- Concatenation of a list of strings (the serialized header block of the
spec's description). -/
def concatAll : List String → String
  | [] => ""
  | s :: t => s ++ concatAll t

/-- The client state reached from construction by a sequence of lifecycle
events. -/
def clientAfter (h : Handlers) (url : String) (es : List ClientEvent) :
    ClientS :=
  es.foldl (stepClient h) (initClient url)

/-! ## Theorems -/

/-- C10: `channel_type_from_string` is a left inverse of
`channel_type_string` on all three channel types, and it maps every string
other than `"video"`, `"audio"`, `"control"` to `Video`, so an unrecognized
channel string in a `udp_channel_setup` is silently treated as the video
channel rather than rejected. -/
theorem channel_type_roundtrip_and_default (t : UdpChannelType)
    (s : String) (sid : Nat) (ca : String)
    (h1 : s ≠ "video") (h2 : s ≠ "audio") (h3 : s ≠ "control") :
    channel_type_from_string (channel_type_string t) = t ∧
    channel_type_from_string s = UdpChannelType.Video ∧
    (udpChannelSetupFromFields sid s ca).channel = UdpChannelType.Video := by
  refine ⟨?_, ?_, ?_⟩
  · cases t <;> simp [channel_type_from_string, channel_type_string]
  · simp [channel_type_from_string, h1, h2, h3]
  · simp [udpChannelSetupFromFields, channel_type_from_string, h1, h2, h3]

/-- Witness for C10 at the concrete channel string `"bogus"`. -/
theorem channel_type_roundtrip_and_default_witness :
    channel_type_from_string (channel_type_string UdpChannelType.Audio)
        = UdpChannelType.Audio ∧
    channel_type_from_string "bogus" = UdpChannelType.Video ∧
    (udpChannelSetupFromFields 7 "bogus" "1.2.3.4").channel
        = UdpChannelType.Video :=
  channel_type_roundtrip_and_default UdpChannelType.Audio "bogus" 7 "1.2.3.4"
    (by decide) (by decide) (by decide)

/-- C6: handling a `ping` with timestamp `ts` sends exactly one message,
a `pong` whose `ts` field equals the received `ts`, whatever the client
state and handler configuration. -/
theorem ping_echoes_single_pong (h : Handlers) (c : ClientS) (ts : Nat) :
    (handle_message h c (InMessage.ping ts)).2 = [OutMessage.pong ⟨ts⟩] ∧
    PongMessage.to_json ⟨ts⟩
      = "\x7b\"type\":\"pong\",\"ts\":" ++ toString ts ++ "\x7d" := by
  exact ⟨rfl, rfl⟩

/-- C1 counterexample: handling a `register_ack` carrying an empty `host_id`
and http port 0 does *not* preserve the invariant
`state == Registered ⇒ assigned_host_id ≠ "" ∧ ports.http > 0`:
from a Connected state satisfying the invariant, `handle_message` stores the
empty host id and the zero ports and still sets the state to Registered
(client.cpp:321-342 performs no validation). -/
theorem register_ack_empty_host_id_breaks_invariant :
    RegInv { running := true, threadActive := true
             connState := ConnectionState.Connected
             assigned_host_id := "", assigned_ports := PortAssignment.zero
             server_url := "wss://relay.example.com" } ∧
    ¬ RegInv (handle_message ⟨none, none, none, false, false⟩
        { running := true, threadActive := true
          connState := ConnectionState.Connected
          assigned_host_id := "", assigned_ports := PortAssignment.zero
          server_url := "wss://relay.example.com" }
        (InMessage.registerAck
          { host_id := "", ports := PortAssignment.zero
            external_address := none })).1 := by
  constructor
  · intro hst
    simp at hst
  · intro hinv
    rcases hinv rfl with ⟨hne, _⟩
    exact hne rfl

/-- C1 (amended): the invariant
`state == Registered ⇒ assigned_host_id ≠ "" ∧ ports.http > 0` is preserved
by handling any message, *provided* every received `register_ack` carries a
non-empty `host_id` and a positive http port; `handle_message` stores the
ack's fields and sets Registered without validation, so the restriction on
the ack is necessary. -/
theorem register_ack_invariant_preserved (h : Handlers) (c : ClientS)
    (m : InMessage)
    (hack : ∀ ack, m = InMessage.registerAck ack →
      ack.host_id ≠ "" ∧ ack.ports.http > 0)
    (hinv : RegInv c) :
    RegInv (handle_message h c m).1 := by
  cases m with
  | registerAck ack =>
    intro _
    exact hack ack rfl
  | registerError e =>
    intro hst
    simp [handle_message] at hst
  | httpRequest req =>
    cases hh : h.http <;> simpa [handle_message, hh, RegInv] using hinv
  | rtspRequest req =>
    cases hh : h.rtsp <;> simpa [handle_message, hh, RegInv] using hinv
  | sessionStart m' => exact hinv
  | sessionEnd sid => exact hinv
  | udpChannelSetup setup =>
    cases hh : h.udp <;> simpa [handle_message, hh, RegInv] using hinv
  | ping ts => exact hinv
  | errorMsg e => exact hinv
  | unknown => exact hinv

/-- Witness for the amended C1 at a concrete well-formed ack. -/
theorem register_ack_invariant_preserved_witness :
    RegInv (handle_message ⟨none, none, none, false, false⟩
      (initClient "wss://relay.example.com")
      (InMessage.registerAck
        { host_id := "h1", ports := ⟨10, 11, 12, 13, 14, 15⟩
          external_address := none })).1 :=
  register_ack_invariant_preserved _ _ _
    (fun ack hm => by
      cases hm
      exact ⟨by decide, by decide⟩)
    (fun hst => absurd hst (by decide))

/-- C3 counterexample: a `udp_channel_setup` whose JSON `channel` field is
the unrecognized string `"bogus"` does *not* get a zero ack: the parse maps
the string to `Video` (protocol.cpp:358), so a running manager creates a
video channel and answers with the real relay and local ports, and a channel
record is created. -/
theorem unknown_channel_string_gets_video_ack :
    (handle_channel_setup 47989 (some 40000)
      { running := true, relay_host := "relay.example.com"
        relay_video_port := 13, relay_audio_port := 14
        relay_control_port := 15, channels := [] }
      (udpChannelSetupFromFields 1 "bogus" "1.2.3.4")).1
      = { session_id := 1, channel := UdpChannelType.Video
          relay_port := 13, local_port := 40000 } ∧
    (handle_channel_setup 47989 (some 40000)
      { running := true, relay_host := "relay.example.com"
        relay_video_port := 13, relay_audio_port := 14
        relay_control_port := 15, channels := [] }
      (udpChannelSetupFromFields 1 "bogus" "1.2.3.4")).2.channels
      = [(UdpChannelType.Video,
          { local_port := 40000, relay_endpoint_port := 13
            local_endpoint_port := 47998, running := true })] := by
  constructor <;> rfl

/-- C3 (amended): `handle_channel_setup` returns an ack with
`local_port = 0` and `relay_port = 0` and leaves the channel map unchanged
when the manager is not running, and likewise when the computed streaming
host port for the channel type is zero; but the unknown-channel-type zero
path is unreachable for messages parsed from JSON, because
`channel_type_from_string` maps every string other than `"video"`,
`"audio"`, `"control"` to `Video`, so such a setup is handled as a video
setup instead of being rejected. -/
theorem channel_setup_failure_paths (base : Nat) (o : Option Nat)
    (m : ChannelManagerS) (s : UdpChannelSetupMessage)
    (sid : Nat) (str ca : String) :
    (m.running = false →
      handle_channel_setup base o m s =
        ({ session_id := s.session_id, channel := s.channel
           relay_port := 0, local_port := 0 }, m)) ∧
    (get_sunshine_port base s.channel = 0 →
      handle_channel_setup base o m s =
        ({ session_id := s.session_id, channel := s.channel
           relay_port := 0, local_port := 0 }, m)) ∧
    ((udpChannelSetupFromFields sid str ca).channel
        = channel_type_from_string str) ∧
    (str ≠ "video" → str ≠ "audio" → str ≠ "control" →
      channel_type_from_string str = UdpChannelType.Video) := by
  refine ⟨?_, ?_, rfl, ?_⟩
  · intro hr
    simp [handle_channel_setup, hr]
  · intro hsp
    by_cases hr : m.running
    · simp [handle_channel_setup, hr, hsp]
    · simp [handle_channel_setup, hr]
  · intro h1 h2 h3
    simp [channel_type_from_string, h1, h2, h3]

/-- Witness for the amended C3: a stopped manager returns the zero ack and
creates no record; `"bogus"` parses to the video channel. -/
theorem channel_setup_failure_paths_witness :
    handle_channel_setup 47989 (some 40000)
      { running := false, relay_host := "relay.example.com"
        relay_video_port := 13, relay_audio_port := 14
        relay_control_port := 15, channels := [] }
      ⟨1, UdpChannelType.Video, "1.2.3.4"⟩
      = (⟨1, UdpChannelType.Video, 0, 0⟩,
         { running := false, relay_host := "relay.example.com"
           relay_video_port := 13, relay_audio_port := 14
           relay_control_port := 15, channels := [] }) ∧
    channel_type_from_string "zzz" = UdpChannelType.Video := by
  have h := channel_setup_failure_paths 47989 (some 40000)
    { running := false, relay_host := "relay.example.com"
      relay_video_port := 13, relay_audio_port := 14
      relay_control_port := 15, channels := [] }
    ⟨1, UdpChannelType.Video, "1.2.3.4"⟩ 1 "zzz" "1.2.3.4"
  exact ⟨h.1 rfl, h.2.2.2 (by decide) (by decide) (by decide)⟩

/-- C5: whenever the loopback transaction throws — whether a transport
exception (the oracle returns `Except.error`) or a parse exception (the
`stoul` on a malformed `Content-Length`) — the HTTP forwarder returns
exactly `(500, "text/plain", "Internal Server Error")` and the RTSP
forwarder returns exactly `(500, "Internal Server Error", {}, "")`. -/
theorem forwarder_exception_maps_to_500
    (e raw : String) (lp : Nat) (method path query uri body ca : String)
    (headers : List (String × String))
    (hhp : exceptIsError (parse_http_response raw) = true)
    (hrp : exceptIsError (parse_rtsp_response raw) = true) :
    handle_http_request (fun _ => Except.error e) lp method path query
        headers body ca
      = (500, "text/plain", "Internal Server Error") ∧
    handle_http_request (fun _ => Except.ok raw) lp method path query
        headers body ca
      = (500, "text/plain", "Internal Server Error") ∧
    handle_rtsp_request (fun _ => Except.error e) method uri headers body ca
      = (500, "Internal Server Error", [], "") ∧
    handle_rtsp_request (fun _ => Except.ok raw) method uri headers body ca
      = (500, "Internal Server Error", [], "") := by
  refine ⟨rfl, ?_, rfl, ?_⟩
  · unfold handle_http_request
    cases hE : parse_http_response raw with
    | error msg => simp [hE]
    | ok r => rw [hE] at hhp; simp [exceptIsError] at hhp
  · unfold handle_rtsp_request
    cases hE : parse_rtsp_response raw with
    | error msg => simp [hE]
    | ok r => rw [hE] at hrp; simp [exceptIsError] at hrp

/-- Witness for C5: a concrete response whose `Content-Length` value makes
`stoul` throw. -/
theorem forwarder_exception_maps_to_500_witness :
    handle_http_request
        (fun _ => Except.ok "HTTP/1.1 200 OK\r\nContent-Length: abc\r\n\r\nhi")
        47989 "GET" "/x" "" [] "" "1.2.3.4"
      = (500, "text/plain", "Internal Server Error") ∧
    handle_rtsp_request
        (fun _ => Except.ok "HTTP/1.1 200 OK\r\nContent-Length: abc\r\n\r\nhi")
        "OPTIONS" "rtsp://127.0.0.1/" [] "" "1.2.3.4"
      = (500, "Internal Server Error", [], "") := by
  have h := forwarder_exception_maps_to_500 "connection refused"
    "HTTP/1.1 200 OK\r\nContent-Length: abc\r\n\r\nhi"
    47989 "GET" "/x" "" "rtsp://127.0.0.1/" "" "1.2.3.4" []
    (by decide) (by decide)
  exact ⟨h.2.1, h.2.2.2⟩

/-- C7: with the tunnel's handlers installed, every `http_request` and
`rtsp_request` is answered by exactly one response carrying the same `id`
as the request — also when the inner nvhttp/RTSP handler is missing or
throws, in which case the response is a status-500 one (still with the
request's id); and for any handler configuration at most one message is
sent per `http_request`, i.e. at most one `http_response` per request
within a connection epoch. -/
theorem response_id_matches_request
    (c : ClientS) (nv : Option NvhttpHandlerT) (rh : Option RtspHandlerT)
    (hs hs2 : Handlers) (req : HttpRequestMessage)
    (rreq : RtspRequestMessage) (e : String)
    (hhttp : hs.http = some (tunnel_handle_http_request nv))
    (hrtsp : hs.rtsp = some (tunnel_handle_rtsp_request rh)) :
    (handle_message hs c (InMessage.httpRequest req)).2
        = [OutMessage.httpResponse (tunnel_handle_http_request nv req)] ∧
    (tunnel_handle_http_request nv req).id = req.id ∧
    (handle_message hs c (InMessage.rtspRequest rreq)).2
        = [OutMessage.rtspResponse (tunnel_handle_rtsp_request rh rreq)] ∧
    (tunnel_handle_rtsp_request rh rreq).id = rreq.id ∧
    (tunnel_handle_http_request none req).status = 500 ∧
    (tunnel_handle_http_request
        (some (fun _ _ _ _ _ _ _ => Except.error e)) req).status = 500 ∧
    (tunnel_handle_rtsp_request none rreq).status = 500 ∧
    (tunnel_handle_rtsp_request
        (some (fun _ _ _ _ _ => Except.error e)) rreq).status = 500 ∧
    (handle_message hs2 c (InMessage.httpRequest req)).2.length ≤ 1 := by
  refine ⟨?_, ?_, ?_, ?_, rfl, rfl, rfl, rfl, ?_⟩
  · simp [handle_message, hhttp]
  · cases nv with
    | none => rfl
    | some f =>
      cases hf : f req.method req.path (req.query.getD "") req.headers
          (req.body.getD "") req.client_addr req.is_https with
      | ok v =>
        obtain ⟨st, ct, b⟩ := v
        simp [tunnel_handle_http_request, hf]
      | error msg => simp [tunnel_handle_http_request, hf]
  · simp [handle_message, hrtsp]
  · cases rh with
    | none => rfl
    | some f =>
      cases hf : f rreq.method rreq.uri rreq.headers (rreq.body.getD "")
          rreq.client_addr with
      | ok v =>
        obtain ⟨st, rs, hd, b⟩ := v
        simp [tunnel_handle_rtsp_request, hf]
      | error msg => simp [tunnel_handle_rtsp_request, hf]
  · cases hh : hs2.http <;> simp [handle_message, hh]

/-- Witness for C7 at a concrete request/handler configuration. -/
theorem response_id_matches_request_witness :
    (handle_message
        ⟨some (tunnel_handle_http_request none),
         some (tunnel_handle_rtsp_request none), none, false, false⟩
        (initClient "wss://relay.example.com")
        (InMessage.httpRequest ⟨7, "GET", "/x", none, [], none, false, "1.2.3.4"⟩)).2
      = [OutMessage.httpResponse
          (tunnel_handle_http_request none
            ⟨7, "GET", "/x", none, [], none, false, "1.2.3.4"⟩)] ∧
    (tunnel_handle_http_request none
        ⟨7, "GET", "/x", none, [], none, false, "1.2.3.4"⟩).id = 7 :=
  have h := response_id_matches_request
    (initClient "wss://relay.example.com") none none
    ⟨some (tunnel_handle_http_request none),
     some (tunnel_handle_rtsp_request none), none, false, false⟩
    ⟨some (tunnel_handle_http_request none),
     some (tunnel_handle_rtsp_request none), none, false, false⟩
    ⟨7, "GET", "/x", none, [], none, false, "1.2.3.4"⟩
    ⟨9, "OPTIONS", "rtsp://127.0.0.1/", [], none, "1.2.3.4"⟩
    "boom" rfl rfl
  ⟨h.1, h.2.1⟩

/-- Helper: the skipped-header test of the code coincides with the
case-insensitive comparison of the spec. -/
theorem isSkippedHeader_eq_not_keepHeader (key : String) :
    isSkippedHeader key = !keepHeader key := by
  have h1 : strToLower "host" = "host" := rfl
  have h2 : strToLower "connection" = "connection" := rfl
  have h3 : strToLower "transfer-encoding" = "transfer-encoding" := rfl
  simp [isSkippedHeader, keepHeader, headerEqCI, h1, h2, h3]

/-- Helper: the header-serialization fold accumulates the concatenation of
the kept headers. -/
theorem forward_headers_go (l : List (String × String)) (s : String) :
    l.foldl
      (fun acc kv =>
        if isSkippedHeader kv.1 then acc
        else acc ++ (kv.1 ++ ": " ++ kv.2 ++ "\r\n"))
      s
      = s ++ concatAll
          ((l.filter (fun kv => keepHeader kv.1)).map
            (fun kv => kv.1 ++ ": " ++ kv.2 ++ "\r\n")) := by
  induction l generalizing s with
  | nil => simp [concatAll, String.append_empty]
  | cons kv t ih =>
    by_cases hk : keepHeader kv.1
    · rw [List.foldl_cons, if_neg (by simp [isSkippedHeader_eq_not_keepHeader, hk]),
        List.filter_cons_of_pos (by simp [hk]), List.map_cons]
      rw [ih, concatAll, String.append_assoc]
    · rw [List.foldl_cons, if_pos (by simp [isSkippedHeader_eq_not_keepHeader, hk]),
        List.filter_cons_of_neg (by simp [hk])]
      exact ih s

/-- C4: the bytes the HTTP forwarder writes to the loopback socket are
exactly the request line `METHOD path[?query] HTTP/1.1`, a `Host` header,
every forwarded header whose name is not `host`, `connection` or
`transfer-encoding` compared case-insensitively, `X-Forwarded-For` and
`X-Starbeam-Client` both set to the client address, `Content-Length` equal
to the body size exactly when the body is non-empty, `Connection: close`, a
blank line, and the body. -/
theorem http_request_write_format (local_port : Nat)
    (method path query client_addr body : String)
    (headers : List (String × String)) :
    build_http_request local_port method path query headers body client_addr
      = (method ++ " "
          ++ (if query.isEmpty then path else path ++ "?" ++ query)
          ++ " HTTP/1.1\r\n")
        ++ ("Host: 127.0.0.1:" ++ toString local_port ++ "\r\n")
        ++ concatAll
            ((headers.filter (fun kv => keepHeader kv.1)).map
              (fun kv => kv.1 ++ ": " ++ kv.2 ++ "\r\n"))
        ++ ("X-Forwarded-For: " ++ client_addr ++ "\r\n")
        ++ ("X-Starbeam-Client: " ++ client_addr ++ "\r\n")
        ++ (if body.isEmpty then ""
            else "Content-Length: " ++ toString (cppSize body) ++ "\r\n")
        ++ "Connection: close\r\n"
        ++ "\r\n"
        ++ body := by
  unfold build_http_request forward_headers
  rw [forward_headers_go]
  by_cases hb : body.isEmpty
  · have hbe : body = "" := (String.isEmpty_iff body).mp hb
    subst hbe
    have he : ("" : String).isEmpty = true := rfl
    by_cases hq : query.isEmpty <;>
      simp [hq, he, String.append_assoc, String.append_empty]
  · by_cases hq : query.isEmpty <;>
      simp [hq, hb, String.append_assoc, String.append_empty]

/-- Helper: looking up the key just assigned returns the assigned record. -/
theorem lookupCh_mapAssign_self (k : UdpChannelType) (v : Channel)
    (l : List (UdpChannelType × Channel)) :
    lookupCh k (mapAssign k v l) = some v := by
  induction l with
  | nil => simp [mapAssign, lookupCh]
  | cons p t ih =>
    by_cases hk : p.1 = k
    · simp [mapAssign, hk, lookupCh]
    · simp [mapAssign, hk, lookupCh, ih]

/-- Helper: the key list after a std::map assignment. -/
theorem keys_mapAssign (k : UdpChannelType) (v : Channel) :
    ∀ l : List (UdpChannelType × Channel),
      (mapAssign k v l).map Prod.fst =
        if k ∈ l.map Prod.fst then l.map Prod.fst
        else l.map Prod.fst ++ [k]
  | [] => by simp [mapAssign]
  | (a, b) :: t => by
    by_cases ha : a = k
    · subst ha
      simp [mapAssign]
    · have ih := keys_mapAssign k v t
      by_cases hm : k ∈ t.map Prod.fst
      · simp [mapAssign, ha, ih, hm, Ne.symm ha]
      · simp [mapAssign, ha, ih, hm, Ne.symm ha]

/-- Helper: std::map assignment preserves key uniqueness. -/
theorem keysNodup_mapAssign (k : UdpChannelType) (v : Channel)
    (l : List (UdpChannelType × Channel)) (h : keysNodup l) :
    keysNodup (mapAssign k v l) := by
  unfold keysNodup at h ⊢
  rw [keys_mapAssign]
  by_cases hm : k ∈ l.map Prod.fst
  · simpa [hm] using h
  · simp [hm, List.nodup_append, h]

/-- Helper: an absent key has no records. -/
theorem countKey_eq_zero (k : UdpChannelType)
    (l : List (UdpChannelType × Channel)) (h : k ∉ l.map Prod.fst) :
    countKey k l = 0 := by
  induction l with
  | nil => rfl
  | cons p t ih =>
    simp only [List.map_cons, List.mem_cons, not_or] at h
    have hp : ¬ p.1 = k := fun he => h.1 he.symm
    unfold countKey
    rw [List.filter_cons_of_neg (by simpa using hp)]
    exact ih h.2

/-- Helper: with unique keys there is at most one record per channel type. -/
theorem countKey_le_one (k : UdpChannelType)
    (l : List (UdpChannelType × Channel)) (h : keysNodup l) :
    countKey k l ≤ 1 := by
  induction l with
  | nil => simp [countKey]
  | cons p t ih =>
    unfold keysNodup at h
    simp only [List.map_cons, List.nodup_cons] at h
    by_cases hp : p.1 = k
    · have h0 : countKey k t = 0 :=
        countKey_eq_zero k t (by rw [← hp]; exact h.1)
    
      unfold countKey
      rw [List.filter_cons_of_pos (by simpa using hp)]
      simp only [List.length_cons]
      have : (t.filter (fun p => decide (p.1 = k))).length = 0 := by
        simpa [countKey] using h0
      omega
    · unfold countKey
      rw [List.filter_cons_of_neg (by simpa using hp)]
      exact ih h.2

/-- Helper: the relay-port selection only reads the stored relay ports. -/
theorem relayPortFor_eq (m1 m2 : ChannelManagerS) (t : UdpChannelType)
    (hv : m1.relay_video_port = m2.relay_video_port)
    (ha : m1.relay_audio_port = m2.relay_audio_port)
    (hc : m1.relay_control_port = m2.relay_control_port) :
    relayPortFor m1 t = relayPortFor m2 t := by
  cases t <;> simp [relayPortFor, hv, ha, hc]

/-- Helper: the state and ack produced by a channel setup that creates a new
record. -/
theorem handle_channel_setup_creates
    (base p : Nat) (m : ChannelManagerS) (s : UdpChannelSetupMessage)
    (hr : m.running = true)
    (hsp : ¬ get_sunshine_port base s.channel = 0)
    (hlk : lookupCh s.channel m.channels = none) :
    handle_channel_setup base (some p) m s =
      (⟨s.session_id, s.channel, relayPortFor m s.channel, p⟩,
       ⟨m.running, m.relay_host, m.relay_video_port, m.relay_audio_port,
        m.relay_control_port,
        mapAssign s.channel
          ⟨p, relayPortFor m s.channel, get_sunshine_port base s.channel, true⟩
          m.channels⟩) := by
  simp [handle_channel_setup, hr, hsp, hlk]

/-- C2: `handle_channel_setup` is idempotent per channel type: once a
channel record exists for a channel type, a further `udp_channel_setup`
for that type returns an ack with the same `local_port` and `relay_port`
as the call that created (or found) the record and leaves the manager state
unchanged; and the channel map keeps at most one record per channel type. -/
theorem udp_channel_setup_idempotent
    (base : Nat) (o1 o2 : Option Nat) (m : ChannelManagerS)
    (s1 s2 : UdpChannelSetupMessage)
    (hch : s2.channel = s1.channel)
    (hnd : keysNodup m.channels)
    (hex : (lookupCh s1.channel
        (handle_channel_setup base o1 m s1).2.channels).isSome = true) :
    ((handle_channel_setup base o2 (handle_channel_setup base o1 m s1).2 s2).1.local_port
        = (handle_channel_setup base o1 m s1).1.local_port) ∧
    ((handle_channel_setup base o2 (handle_channel_setup base o1 m s1).2 s2).1.relay_port
        = (handle_channel_setup base o1 m s1).1.relay_port) ∧
    ((handle_channel_setup base o2 (handle_channel_setup base o1 m s1).2 s2).2
        = (handle_channel_setup base o1 m s1).2) ∧
    keysNodup (handle_channel_setup base o1 m s1).2.channels ∧
    countKey s1.channel (handle_channel_setup base o1 m s1).2.channels ≤ 1 := by
  by_cases hr : m.running = true
  · by_cases hsp : get_sunshine_port base s1.channel = 0
    · have e1 : handle_channel_setup base o1 m s1 =
          (⟨s1.session_id, s1.channel, 0, 0⟩, m) := by
        simp [handle_channel_setup, hr, hsp]
      have e2 : handle_channel_setup base o2 m s2 =
          (⟨s2.session_id, s2.channel, 0, 0⟩, m) := by
        simp [handle_channel_setup, hr, hch, hsp]
      rw [e1, e2]
      exact ⟨rfl, rfl, rfl, hnd, countKey_le_one _ _ hnd⟩
    · cases hlk : lookupCh s1.channel m.channels with
      | some ch =>
        have e1 : handle_channel_setup base o1 m s1 =
            (⟨s1.session_id, s1.channel, relayPortFor m s1.channel,
              ch.local_port⟩, m) := by
          cases o1 <;> simp [handle_channel_setup, hr, hsp, hlk]
        have e2 : handle_channel_setup base o2 m s2 =
            (⟨s2.session_id, s2.channel, relayPortFor m s1.channel,
              ch.local_port⟩, m) := by
          cases o2 <;> simp [handle_channel_setup, hr, hch, hsp, hlk]
        rw [e1, e2]
        exact ⟨rfl, rfl, rfl, hnd, countKey_le_one _ _ hnd⟩
      | none =>
        cases o1 with
        | none =>
          have e1 : handle_channel_setup base none m s1 =
              (⟨s1.session_id, s1.channel, 0, 0⟩, m) := by
            simp [handle_channel_setup, hr, hsp, hlk]
          rw [e1] at hex
          rw [hlk] at hex
          simp at hex
        | some p =>
          have e1 := handle_channel_setup_creates base p m s1 hr hsp hlk
          have hlk2 : lookupCh s1.channel
              (mapAssign s1.channel
                ⟨p, relayPortFor m s1.channel,
                  get_sunshine_port base s1.channel, true⟩
                m.channels) =
              some ⟨p, relayPortFor m s1.channel,
                get_sunshine_port base s1.channel, true⟩ :=
            lookupCh_mapAssign_self _ _ _
          have e2 : handle_channel_setup base o2
              (handle_channel_setup base (some p) m s1).2 s2 =
              (⟨s2.session_id, s1.channel, relayPortFor m s1.channel, p⟩,
               (handle_channel_setup base (some p) m s1).2) := by
            rw [e1]
            cases o2 <;>
              simp [handle_channel_setup, hr, hch, hsp, hlk2] <;>
                exact relayPortFor_eq _ _ _ rfl rfl rfl
          rw [e2, e1]
          refine ⟨rfl, rfl, rfl, ?_, ?_⟩
          · exact keysNodup_mapAssign _ _ _ hnd
          · exact countKey_le_one _ _ (keysNodup_mapAssign _ _ _ hnd)
  · have hr' : m.running = false := by simpa using hr
    have e1 : handle_channel_setup base o1 m s1 =
        (⟨s1.session_id, s1.channel, 0, 0⟩, m) := by
      simp [handle_channel_setup, hr']
    have e2 : handle_channel_setup base o2 m s2 =
        (⟨s2.session_id, s2.channel, 0, 0⟩, m) := by
      simp [handle_channel_setup, hr']
    rw [e1, e2]
    exact ⟨rfl, rfl, rfl, hnd, countKey_le_one _ _ hnd⟩

/-- Witness for C2: a concrete video setup followed by a repeat setup
returns the identical ports and leaves exactly one record. -/
theorem udp_channel_setup_idempotent_witness :
    ((handle_channel_setup 47989 none
        (handle_channel_setup 47989 (some 40001)
          { running := true, relay_host := "relay.example.com"
            relay_video_port := 13, relay_audio_port := 14
            relay_control_port := 15, channels := [] }
          ⟨1, UdpChannelType.Video, "1.2.3.4"⟩).2
        ⟨1, UdpChannelType.Video, "1.2.3.4"⟩).1.local_port
      = (handle_channel_setup 47989 (some 40001)
          { running := true, relay_host := "relay.example.com"
            relay_video_port := 13, relay_audio_port := 14
            relay_control_port := 15, channels := [] }
          ⟨1, UdpChannelType.Video, "1.2.3.4"⟩).1.local_port) ∧
    countKey UdpChannelType.Video
      (handle_channel_setup 47989 (some 40001)
        { running := true, relay_host := "relay.example.com"
          relay_video_port := 13, relay_audio_port := 14
          relay_control_port := 15, channels := [] }
        ⟨1, UdpChannelType.Video, "1.2.3.4"⟩).2.channels ≤ 1 :=
  have h := udp_channel_setup_idempotent 47989 (some 40001) none
    { running := true, relay_host := "relay.example.com"
      relay_video_port := 13, relay_audio_port := 14
      relay_control_port := 15, channels := [] }
    ⟨1, UdpChannelType.Video, "1.2.3.4"⟩
    ⟨1, UdpChannelType.Video, "1.2.3.4"⟩
    rfl (by simp [keysNodup]) (by decide)
  ⟨h.1, h.2.2.2.2⟩

/-- Helper: dispatching one message never changes whether the I/O thread is
live. -/
theorem handle_message_threadActive (h : Handlers) (c : ClientS)
    (m : InMessage) :
    (handle_message h c m).1.threadActive = c.threadActive := by
  cases m with
  | registerAck ack => rfl
  | registerError e => rfl
  | httpRequest req => cases hh : h.http <;> simp [handle_message, hh]
  | rtspRequest req => cases hh : h.rtsp <;> simp [handle_message, hh]
  | sessionStart s => rfl
  | sessionEnd s => rfl
  | udpChannelSetup s => cases hh : h.udp <;> simp [handle_message, hh]
  | ping ts => rfl
  | errorMsg e => rfl
  | unknown => rfl

/-- Helper: every lifecycle step preserves "if the I/O thread is not live,
the assigned registration state is empty". -/
theorem stepClient_preserves_cleared (h : Handlers) (c : ClientS)
    (e : ClientEvent)
    (hc : c.threadActive = false →
      c.assigned_host_id = "" ∧ c.assigned_ports = PortAssignment.zero) :
    (stepClient h c e).threadActive = false →
      (stepClient h c e).assigned_host_id = "" ∧
      (stepClient h c e).assigned_ports = PortAssignment.zero := by
  cases e with
  | start =>
    by_cases hr : c.running
    · simpa [stepClient, hr] using hc
    · intro hta
      simp [stepClient, hr] at hta
  | connectParse =>
    by_cases hta : c.threadActive
    · cases hp : parse_url c.server_url <;>
        simp [stepClient, hta, hp]
    · simpa [stepClient, hta] using hc
  | connected =>
    by_cases hta : c.threadActive
    · simp [stepClient, hta]
    · simpa [stepClient, hta] using hc
  | msg m =>
    by_cases hta : c.threadActive
    · intro h0
      rw [stepClient, if_pos hta, handle_message_threadActive] at h0
      rw [hta] at h0
      cases h0
    · simpa [stepClient, hta] using hc
  | ioCycleEnd =>
    by_cases hta : c.threadActive
    · intro _
      simp [stepClient, hta, disconnectClient]
    · simpa [stepClient, hta] using hc
  | stop =>
    intro _
    by_cases hta : c.threadActive
    · simp [stepClient, stopClient, hta, disconnectClient]
    · have := hc (by simpa using hta)
      simpa [stepClient, stopClient, hta] using this

/-- Helper: the cleared-when-idle invariant holds along every event
sequence. -/
theorem runClient_preserves_cleared (h : Handlers) (es : List ClientEvent) :
    ∀ c : ClientS,
      (c.threadActive = false →
        c.assigned_host_id = "" ∧ c.assigned_ports = PortAssignment.zero) →
      ((es.foldl (stepClient h) c).threadActive = false →
        (es.foldl (stepClient h) c).assigned_host_id = "" ∧
        (es.foldl (stepClient h) c).assigned_ports = PortAssignment.zero) := by
  induction es with
  | nil => exact fun c hc => hc
  | cons e t ih =>
    intro c hc
    exact ih _ (stepClient_preserves_cleared h c e hc)

/-- C9: whatever connect/register activity preceded it, after `stop()` the
client reports state Disconnected, an empty assigned host id, all-zero
assigned ports, and neither the running flag nor the I/O thread remains
set. -/
theorem stop_clears_assigned_state (h : Handlers) (url : String)
    (es : List ClientEvent) :
    get_state (stepClient h (clientAfter h url es) ClientEvent.stop)
        = ConnectionState.Disconnected ∧
    get_host_id (stepClient h (clientAfter h url es) ClientEvent.stop) = "" ∧
    get_ports (stepClient h (clientAfter h url es) ClientEvent.stop)
        = PortAssignment.zero ∧
    (stepClient h (clientAfter h url es) ClientEvent.stop).running = false ∧
    (stepClient h (clientAfter h url es) ClientEvent.stop).threadActive
        = false := by
  have hinv := runClient_preserves_cleared h es (initClient url)
    (fun _ => ⟨rfl, rfl⟩)
  by_cases hta : (clientAfter h url es).threadActive
  · simp [stepClient, stopClient, hta, disconnectClient, get_state,
      get_host_id, get_ports]
  · have hta' : (List.foldl (stepClient h) (initClient url) es).threadActive
        = false := by
      simpa [clientAfter] using hta
    have h2 := hinv hta'
    simp [stepClient, stopClient, hta', get_state, get_host_id, get_ports,
      clientAfter, h2.1, h2.2]

theorem takeWhile_append_of_all (p : Char → Bool) (xs ys : List Char)
    (h : ∀ x ∈ xs, p x = true) :
    (xs ++ ys).takeWhile p = xs ++ ys.takeWhile p := by
  induction xs with
  | nil => simp
  | cons x t ih =>
    simp only [List.cons_append, List.takeWhile_cons, h x (by simp)]
    simp [ih (fun a ha => h a (by simp [ha]))]

theorem dropWhile_append_of_all (p : Char → Bool) (xs ys : List Char)
    (h : ∀ x ∈ xs, p x = true) :
    (xs ++ ys).dropWhile p = ys.dropWhile p := by
  induction xs with
  | nil => simp
  | cons x t ih =>
    simp only [List.cons_append, List.dropWhile_cons, h x (by simp)]
    simp [ih (fun a ha => h a (by simp [ha]))]

theorem takeWhile_all (p : Char → Bool) (xs : List Char)
    (h : ∀ x ∈ xs, p x = true) : xs.takeWhile p = xs := by
  have := takeWhile_append_of_all p xs [] h
  simpa using this

theorem dropWhile_all (p : Char → Bool) (xs : List Char)
    (h : ∀ x ∈ xs, p x = true) : xs.dropWhile p = [] := by
  have := dropWhile_append_of_all p xs [] h
  simpa using this

theorem parseHostPortPath_spec (scheme hostL : List Char)
    (portO pathO : Option (List Char))
    (hh : hostL ≠ [])
    (hhc : ∀ c ∈ hostL, notHostDelim c = true)
    (hp : ∀ ds, portO = some ds → ds ≠ [] ∧ ∀ c ∈ ds, isAsciiDigit c = true)
    (hpa : ∀ pr, pathO = some pr → ∀ c ∈ pr, isLineTerminator c = false) :
    parseHostPortPath scheme
      (hostL
        ++ (match portO with
            | some ds => ':' :: ds
            | none => [])
        ++ (match pathO with
            | some pr => '/' :: pr
            | none => []))
      = some { host := String.mk hostL
               port := match portO with
                 | some ds => String.mk ds
                 | none =>
                   if String.mk scheme == "wss" || String.mk scheme == "WSS"
                   then "443" else "80"
               path := match pathO with
                 | some pr => String.mk ('/' :: pr)
                 | none => "/"
               use_ssl :=
                 String.mk scheme == "wss" || String.mk scheme == "WSS" } := by
  have hhe : hostL.isEmpty = false := by
    cases hostL with
    | nil => exact absurd rfl hh
    | cons a t => rfl
  rcases portO with _ | ds <;> rcases pathO with _ | pr
  · -- no port, no path
    simp only [List.append_nil]
    unfold parseHostPortPath
    rw [takeWhile_all _ _ hhc, dropWhile_all _ _ hhc]
    simp [hhe, parsePathGroup]
  · -- no port, path present
    simp only [List.append_nil]
    unfold parseHostPortPath
    rw [takeWhile_append_of_all _ _ _ hhc, dropWhile_append_of_all _ _ _ hhc]
    have hall : pr.all (fun c => !isLineTerminator c) = true :=
      List.all_eq_true.mpr (fun c hc => by simp [hpa pr rfl c hc])
    simp [hhe, parsePathGroup, hall, List.takeWhile_cons, notHostDelim,
      List.dropWhile_cons]
  · -- port present, no path
    simp only [List.append_nil]
    unfold parseHostPortPath
    rw [takeWhile_append_of_all _ _ _ hhc, dropWhile_append_of_all _ _ _ hhc]
    obtain ⟨hd, hdc⟩ := hp ds rfl
    have hde : ds.isEmpty = false := by
      cases ds with
      | nil => exact absurd rfl hd
      | cons a t => rfl
    rw [show List.dropWhile notHostDelim (':' :: ds) = ':' :: ds from by
      simp [List.dropWhile_cons, notHostDelim]]
    rw [show List.takeWhile notHostDelim (':' :: ds) = [] from by
      simp [List.takeWhile_cons, notHostDelim]]
    simp only [List.append_nil, hhe, Bool.false_eq_true, if_false]
    rw [takeWhile_all _ _ hdc, dropWhile_all _ _ hdc]
    simp [hde, parsePathGroup]
  · -- port and path present
    simp only [List.append_assoc, List.cons_append]
    unfold parseHostPortPath
    rw [takeWhile_append_of_all _ _ _ hhc, dropWhile_append_of_all _ _ _ hhc]
    obtain ⟨hd, hdc⟩ := hp ds rfl
    have hde : ds.isEmpty = false := by
      cases ds with
      | nil => exact absurd rfl hd
      | cons a t => rfl
    have hall : pr.all (fun c => !isLineTerminator c) = true :=
      List.all_eq_true.mpr (fun c hc => by simp [hpa pr rfl c hc])
    rw [show List.dropWhile notHostDelim (':' :: (ds ++ '/' :: pr))
        = ':' :: (ds ++ '/' :: pr) from by
      simp [List.dropWhile_cons, notHostDelim]]
    rw [show List.takeWhile notHostDelim (':' :: (ds ++ '/' :: pr)) = [] from by
      simp [List.takeWhile_cons, notHostDelim]]
    simp only [List.append_nil, hhe, Bool.false_eq_true, if_false]
    rw [takeWhile_append_of_all _ _ _ hdc, dropWhile_append_of_all _ _ _ hdc]
    rw [show List.takeWhile isAsciiDigit ('/' :: pr) = [] from by
      simp [List.takeWhile_cons, isAsciiDigit]]
    rw [show List.dropWhile isAsciiDigit ('/' :: pr) = '/' :: pr from by
      simp [List.dropWhile_cons, isAsciiDigit]]
    simp [hde, parsePathGroup, hall]

theorem schemeSplitChars_ws (rest : List Char) :
    schemeSplitChars ('w' :: 's' :: ':' :: '/' :: '/' :: rest)
      = some (['w', 's'], rest) := rfl

theorem schemeSplitChars_wss (rest : List Char) :
    schemeSplitChars ('w' :: 's' :: 's' :: ':' :: '/' :: '/' :: rest)
      = some (['w', 's', 's'], rest) := rfl

theorem parse_url_mk (L : List Char) :
    parse_url (String.mk L) = parse_url_chars L := rfl

theorem parse_url_wellformed (ssl : Bool) (hostL : List Char)
    (portO pathO : Option (List Char))
    (hh : hostL ≠ [])
    (hhc : ∀ ch ∈ hostL, notHostDelim ch = true)
    (hp : ∀ ds, portO = some ds → ds ≠ [] ∧ ∀ ch ∈ ds, isAsciiDigit ch = true)
    (hpa : ∀ pr, pathO = some pr → ∀ ch ∈ pr, isLineTerminator ch = false) :
    parse_url (String.mk
      ((if ssl then ['w', 's', 's'] else ['w', 's'])
        ++ ':' :: '/' :: '/' :: hostL
        ++ (match portO with
            | some ds => ':' :: ds
            | none => [])
        ++ (match pathO with
            | some pr => '/' :: pr
            | none => [])))
      = some { host := String.mk hostL
               port := match portO with
                 | some ds => String.mk ds
                 | none => if ssl then "443" else "80"
               path := match pathO with
                 | some pr => String.mk ('/' :: pr)
                 | none => "/"
               use_ssl := ssl } := by
  have hspec := parseHostPortPath_spec
    (if ssl then ['w', 's', 's'] else ['w', 's'])
    hostL portO pathO hh hhc hp hpa
  rw [parse_url_mk]
  cases ssl with
  | false =>
    have hssl : (String.mk ['w', 's'] == "wss"
        || String.mk ['w', 's'] == "WSS") = false := by decide
    rw [if_neg (by decide : ¬ (false = true))] at hspec ⊢
    rw [hssl] at hspec
    simp only [List.cons_append, List.nil_append, List.append_assoc]
    unfold parse_url_chars
    rw [schemeSplitChars_ws, ← List.append_assoc]
    exact hspec
  | true =>
    have hssl : (String.mk ['w', 's', 's'] == "wss"
        || String.mk ['w', 's', 's'] == "WSS") = true := by decide
    rw [if_pos (rfl : true = true)] at hspec ⊢
    rw [hssl] at hspec
    simp only [List.cons_append, List.nil_append, List.append_assoc]
    unfold parse_url_chars
    rw [schemeSplitChars_wss, ← List.append_assoc]
    exact hspec

/-- C8 (amended): `parse_url` accepts every URL
`scheme://host[:port][/path...]` whose scheme is `ws` or `wss` (and, the
regex being case-insensitive, any case variant): for the exact schemes `ws`
and `wss`, an absent port defaults to 443 for wss and 80 for ws, an absent
path defaults to `/`, and SSL is used exactly when the scheme is `wss`;
every URL the pattern rejects makes `parse_url` return false, upon which
`connect` sets the state to Error.  (Case-variant schemes such as `Wss` also
parse but use SSL only for the exact spellings `wss` and `WSS`; see the
counterexample.) -/
theorem parse_url_spec_and_connect_error (ssl : Bool) (hostL : List Char)
    (portO pathO : Option (List Char)) (h : Handlers) (c : ClientS)
    (hh : hostL ≠ [])
    (hhc : ∀ ch ∈ hostL, notHostDelim ch = true)
    (hp : ∀ ds, portO = some ds → ds ≠ [] ∧ ∀ ch ∈ ds, isAsciiDigit ch = true)
    (hpa : ∀ pr, pathO = some pr → ∀ ch ∈ pr, isLineTerminator ch = false)
    (hta : c.threadActive = true)
    (hfail : parse_url c.server_url = none) :
    parse_url (String.mk
      ((if ssl then ['w', 's', 's'] else ['w', 's'])
        ++ ':' :: '/' :: '/' :: hostL
        ++ (match portO with
            | some ds => ':' :: ds
            | none => [])
        ++ (match pathO with
            | some pr => '/' :: pr
            | none => [])))
      = some { host := String.mk hostL
               port := match portO with
                 | some ds => String.mk ds
                 | none => if ssl then "443" else "80"
               path := match pathO with
                 | some pr => String.mk ('/' :: pr)
                 | none => "/"
               use_ssl := ssl } ∧
    (stepClient h c ClientEvent.connectParse).connState
        = ConnectionState.Error :=
  ⟨parse_url_wellformed ssl hostL portO pathO hh hhc hp hpa,
   by simp [stepClient, hta, hfail]⟩

/-- Witness for the amended C8: `wss://h` parses with port 443, path `/`
and SSL on, and a client whose configured URL is `notaurl` transitions to
Error on connect. -/
theorem parse_url_spec_and_connect_error_witness :
    parse_url (String.mk
      ((if true then ['w', 's', 's'] else ['w', 's'])
        ++ ':' :: '/' :: '/' :: ['h']
        ++ (match (none : Option (List Char)) with
            | some ds => ':' :: ds
            | none => [])
        ++ (match (none : Option (List Char)) with
            | some pr => '/' :: pr
            | none => [])))
      = some { host := String.mk ['h'], port := if true then "443" else "80"
               path := "/", use_ssl := true } ∧
    (stepClient ⟨none, none, none, false, false⟩
      { running := true, threadActive := true
        connState := ConnectionState.Connecting
        assigned_host_id := "", assigned_ports := PortAssignment.zero
        server_url := "notaurl" }
      ClientEvent.connectParse).connState = ConnectionState.Error :=
  parse_url_spec_and_connect_error true ['h'] none none
    ⟨none, none, none, false, false⟩
    { running := true, threadActive := true
      connState := ConnectionState.Connecting
      assigned_host_id := "", assigned_ports := PortAssignment.zero
      server_url := "notaurl" }
    (by decide) (by decide) (fun ds hds => by cases hds)
    (fun pr hpr => by cases hpr) rfl (by rfl)

/-- C8 counterexample: the regex matches the scheme case-insensitively but
`use_ssl` compares the matched text only against `"wss"` and `"WSS"`
(client.cpp:142), so `Wss://example.com` — whose scheme is not the literal
`ws` or `wss` — is *accepted* by `parse_url`, with SSL off and port
defaulting to 80 even though its scheme is wss up to case.  This refutes
both "for every URL not of this form parse_url returns false" and "SSL is
used exactly when the scheme is wss". -/
theorem parse_url_mixed_case_scheme_accepted :
    parse_url "Wss://example.com"
      = some { host := "example.com", port := "80", path := "/"
               use_ssl := false } := by
  rfl
